import Mathlib

/-!
# jconfigint.h: the capability header of the bundled JPEG codec

The source is a C preprocessor header
(`Client/target/release/build/mozjpeg-sys-0fdecbea1c3200ff/out/include/jconfigint.h`).
It is embedded as a small directive tree together with an interpreter for the
directives it uses (`#define`, `#ifndef`, `#if`/`#elif`/`#else`, `defined(X)`,
`||`, `(X == k)`).  The interpreter threads the table of object-like
definitions and records every `#define` it executes, so that overriding and
redefinition can be stated.
-/

namespace JConfigInt

/-- Replacement list of an object-like definition: either a single integer
constant (the only kind a `#if` comparison reads in this header) or any other
token text, spelled as in the source with the surrounding blanks removed. -/
inductive Body where
  | text (s : String)
  | int (n : Nat)
deriving DecidableEq, Repr

/-- Table of the object-like definitions in force: `none` is "not defined". -/
abbrev Env := String → Option Body

/-- Controlling expressions of the `#if` / `#elif` lines of the header. -/
inductive Cond where
  | defined (name : String)
  | or (a b : Cond)
  | eqInt (name : String) (k : Nat)
deriving Repr

/-- Directive tree.  `ifndefGuard x g` is `#ifndef x`, group `g`, `#endif`.
`#elif c` is written as `ifElse` in the else group of the enclosing `ifElse`;
a group without `#else` has the else group `skip`. -/
inductive Prog where
  | skip
  | define (name : String) (body : Body)
  | ifndefGuard (name : String) (group : Prog)
  | ifElse (c : Cond) (thenGroup elseGroup : Prog)
  | seq (first rest : Prog)
deriving Repr

/-- One executed `#define`: the name, the new replacement list, and what the
name stood for just before the line. -/
structure Event where
  name : String
  body : Body
  prev : Option Body
deriving DecidableEq, Repr

/-- Preprocessor state: the definitions in force and the executed `#define`s,
oldest first. -/
structure State where
  env : Env
  log : List Event

/-- Value of a controlling expression.  An identifier that is not defined
counts as `0` in a comparison; a comparison whose operand expands to something
other than one integer constant is not evaluated (`none`).  Constants are
compared as natural numbers, which is the preprocessor's 64-bit result for
every constant below `2 ^ 63`; the header as committed compares 8 with 8 and
with 4. -/
def Cond.eval (σ : Env) : Cond → Option Bool
  | .defined name => some (σ name).isSome
  | .or a b =>
    match a.eval σ, b.eval σ with
    | some x, some y => some (x || y)
    | _, _ => none
  | .eqInt name k =>
    match σ name with
    | none => some (decide (0 = k))
    | some (.int v) => some (decide (v = k))
    | some (.text _) => none

/-- Effect of `#define name body`: the new replacement list takes over,
whatever the name stood for before (a compiler diagnoses a re-definition with
a different body and carries on with the new one), and the line is recorded
together with the body it replaced. -/
def State.define (s : State) (name : String) (body : Body) : State :=
  { env := fun x => if x = name then some body else s.env x
    log := s.log ++ [⟨name, body, s.env name⟩] }

/-- Runs a directive tree. -/
def run : Prog → State → Option State
  | .skip, s => some s
  | .define name body, s => some (s.define name body)
  | .ifndefGuard name group, s =>
    if (s.env name).isSome then some s else run group s
  | .ifElse c thenGroup elseGroup, s =>
    match c.eval s.env with
    | none => none
    | some true => run thenGroup s
    | some false => run elseGroup s
  | .seq first rest, s =>
    match run first s with
    | none => none
    | some s1 => run rest s1

/-- Lines in sequence. -/
def lines : List Prog → Prog
  | [] => .skip
  | p :: ps => .seq p (lines ps)

/-- Test `defined(__clang__) || defined(__GNUC__)`. -/
def gccFamily : Cond := .or (.defined "__clang__") (.defined "__GNUC__")

/-- Test `defined(_MSC_VER)`. -/
def msvc : Cond := .defined "_MSC_VER"

/-- Lines 3-11: the inlining decision, guarded by `#ifndef INLINE`. -/
def inlineBlock : Prog :=
  .ifndefGuard "INLINE"
    (.ifElse gccFamily
      (.define "INLINE" (.text "inline __attribute__((always_inline))"))
      (.ifElse msvc
        (.define "INLINE" (.text "__forceinline"))
        (.define "INLINE" (.text "inline"))))

/-- Lines 12-16: the visibility decision, guarded by `#ifndef HIDDEN`; the
`#if` has no `#else`. -/
def hiddenBlock : Prog :=
  .ifndefGuard "HIDDEN"
    (.ifElse gccFamily
      (.define "HIDDEN" (.text "__attribute__((visibility(\"hidden\")))"))
      .skip)

/-- Lines 17-27: the thread-local decision, guarded by `#ifndef THREAD_LOCAL`;
`_MSC_VER` is tested first. -/
def threadLocalBlock : Prog :=
  .ifndefGuard "THREAD_LOCAL"
    (.ifElse msvc
      (lines [
        .define "HAVE_THREAD_LOCAL" (.text ""),
        .define "THREAD_LOCAL" (.text "__declspec(thread)")])
      (.ifElse gccFamily
        (lines [
          .define "HAVE_THREAD_LOCAL" (.text ""),
          .define "THREAD_LOCAL" (.text "__thread")])
        (.define "THREAD_LOCAL" (.text ""))))

/-- Lines 29-39: the bit-scan decision, guarded by `#ifndef HAVE_BUILTIN_CTZL`;
`_MSC_VER` is tested first and neither `#if` has an `#else`. -/
def bitScanBlock : Prog :=
  .ifndefGuard "HAVE_BUILTIN_CTZL"
    (.ifElse msvc
      (.ifElse (.eqInt "SIZEOF_SIZE_T" 8)
        (.define "HAVE_BITSCANFORWARD64" (.text ""))
        (.ifElse (.eqInt "SIZEOF_SIZE_T" 4)
          (.define "HAVE_BITSCANFORWARD" (.text ""))
          .skip))
      (.ifElse gccFamily
        (.define "HAVE_BUILTIN_CTZL" (.int 1))
        .skip))

/-- The header, in source order (line 1 is blank).  `wordSize` is the integer
constant of line 28, `#define SIZEOF_SIZE_T 8`: the header in the repository
is `jconfigint_h 8`, and a statement about the repository's header is one
about `jconfigint_h 8` (or about every `wordSize`). -/
def jconfigint_h (wordSize : Nat) : Prog :=
  lines [
    .define "BUILD" (.text "\"1763876105-mozjpeg-sys\""),
    inlineBlock,
    hiddenBlock,
    threadLocalBlock,
    .define "SIZEOF_SIZE_T" (.int wordSize),
    bitScanBlock,
    .define "FALLTHROUGH" (.text ""),
    .define "PACKAGE_NAME" (.text "\"mozjpeg-sys\""),
    .define "VERSION" (.text "\"2.2.3\"")]

/-- One pass over the header from the definitions `σ` of the build context. -/
def resolve (wordSize : Nat) (σ : Env) : Option State :=
  run (jconfigint_h wordSize) ⟨σ, []⟩

/-- Build context given by a list of definitions (first match wins). -/
def ctx (ds : List (String × Body)) : Env := fun x => ds.lookup x

/-! ## Unfolding equations of the interpreter -/

/-- A `#define` line always succeeds. -/
theorem run_define (name : String) (body : Body) (s : State) :
    run (.define name body) s = some (s.define name body) := rfl

/-- No lines: the state is returned as it is. -/
theorem run_lines_nil (s : State) : run (lines []) s = some s := rfl

/-- Lines run in order, the first failure ending the pass. -/
theorem run_lines_cons (p : Prog) (ps : List Prog) (s : State) :
    run (lines (p :: ps)) s = (run p s).bind (run (lines ps)) := by
  simp only [lines, run]
  cases run p s <;> rfl

/-! ## The interpreter on the four guarded blocks -/

/-- Lines 3-11 in closed form: the block never fails, and it defines `INLINE`
(by the compiler tests, clang/GCC first) exactly when `INLINE` is not defined. -/
theorem run_inlineBlock (s : State) :
    run inlineBlock s = some
      { env := fun x =>
          if x = "INLINE" ∧ s.env "INLINE" = none then
            some (.text (if ((s.env "__clang__").isSome || (s.env "__GNUC__").isSome) then
              "inline __attribute__((always_inline))"
              else if (s.env "_MSC_VER").isSome then "__forceinline" else "inline"))
          else s.env x
        log := s.log ++
          if s.env "INLINE" = none then
            [⟨"INLINE", .text (if ((s.env "__clang__").isSome || (s.env "__GNUC__").isSome) then
              "inline __attribute__((always_inline))"
              else if (s.env "_MSC_VER").isSome then "__forceinline" else "inline"), none⟩]
          else [] } := by
  cases hi : s.env "INLINE" <;> cases hc : s.env "__clang__" <;> cases hg : s.env "__GNUC__" <;>
    cases hm : s.env "_MSC_VER" <;>
    simp [inlineBlock, run, Cond.eval, gccFamily, msvc, State.define, hi, hc, hg, hm]

/-- Lines 12-16 in closed form: the block never fails, and it defines `HIDDEN`
exactly when `HIDDEN` is not defined and `__clang__` or `__GNUC__` is. -/
theorem run_hiddenBlock (s : State) :
    run hiddenBlock s = some
      { env := fun x =>
          if x = "HIDDEN" ∧ s.env "HIDDEN" = none ∧
              ((s.env "__clang__").isSome || (s.env "__GNUC__").isSome) then
            some (.text "__attribute__((visibility(\"hidden\")))")
          else s.env x
        log := s.log ++
          if s.env "HIDDEN" = none ∧
              ((s.env "__clang__").isSome || (s.env "__GNUC__").isSome) then
            [⟨"HIDDEN", .text "__attribute__((visibility(\"hidden\")))", none⟩]
          else [] } := by
  cases hi : s.env "HIDDEN" <;> cases hc : s.env "__clang__" <;> cases hg : s.env "__GNUC__" <;>
    simp [hiddenBlock, run, Cond.eval, gccFamily, State.define, hi, hc, hg]

/-- Lines 17-27 in closed form: the block never fails; when `THREAD_LOCAL` is
not defined it defines it (`_MSC_VER` tested first), preceded by
`HAVE_THREAD_LOCAL` when one of the three compiler names is defined. -/
theorem run_threadLocalBlock (s : State) :
    run threadLocalBlock s = some
      { env := fun x =>
          if s.env "THREAD_LOCAL" = none then
            if x = "THREAD_LOCAL" then
              some (.text (if (s.env "_MSC_VER").isSome then "__declspec(thread)"
                else if ((s.env "__clang__").isSome || (s.env "__GNUC__").isSome) then "__thread"
                else ""))
            else if x = "HAVE_THREAD_LOCAL" ∧ ((s.env "_MSC_VER").isSome ||
                ((s.env "__clang__").isSome || (s.env "__GNUC__").isSome)) then
              some (.text "")
            else s.env x
          else s.env x
        log := s.log ++
          if s.env "THREAD_LOCAL" = none then
            (if ((s.env "_MSC_VER").isSome ||
                ((s.env "__clang__").isSome || (s.env "__GNUC__").isSome)) then
              [⟨"HAVE_THREAD_LOCAL", .text "", s.env "HAVE_THREAD_LOCAL"⟩]
            else []) ++
            [⟨"THREAD_LOCAL", .text (if (s.env "_MSC_VER").isSome then "__declspec(thread)"
                else if ((s.env "__clang__").isSome || (s.env "__GNUC__").isSome) then "__thread"
                else ""), none⟩]
          else [] } := by
  cases hi : s.env "THREAD_LOCAL" <;> cases hc : s.env "__clang__" <;>
    cases hg : s.env "__GNUC__" <;> cases hm : s.env "_MSC_VER" <;>
    simp [threadLocalBlock, lines, run, Cond.eval, gccFamily, msvc, State.define, hi, hc, hg, hm]

/-- Lines 29-39 in closed form, when `SIZEOF_SIZE_T` stands for the integer
constant `w` (as it does after line 28): the block does not fail, and when
`HAVE_BUILTIN_CTZL` is not defined it emits at most one flag. -/
theorem run_bitScanBlock (s : State) (w : Nat) (hs : s.env "SIZEOF_SIZE_T" = some (.int w)) :
    run bitScanBlock s = some
      { env := fun x =>
          if s.env "HAVE_BUILTIN_CTZL" = none then
            if (s.env "_MSC_VER").isSome then
              if x = "HAVE_BITSCANFORWARD64" ∧ w = 8 then some (.text "")
              else if x = "HAVE_BITSCANFORWARD" ∧ w = 4 then some (.text "")
              else s.env x
            else if x = "HAVE_BUILTIN_CTZL" ∧
                ((s.env "__clang__").isSome || (s.env "__GNUC__").isSome) then
              some (.int 1)
            else s.env x
          else s.env x
        log := s.log ++
          if s.env "HAVE_BUILTIN_CTZL" = none then
            if (s.env "_MSC_VER").isSome then
              if w = 8 then [⟨"HAVE_BITSCANFORWARD64", .text "", s.env "HAVE_BITSCANFORWARD64"⟩]
              else if w = 4 then [⟨"HAVE_BITSCANFORWARD", .text "", s.env "HAVE_BITSCANFORWARD"⟩]
              else []
            else if ((s.env "__clang__").isSome || (s.env "__GNUC__").isSome) then
              [⟨"HAVE_BUILTIN_CTZL", .int 1, none⟩]
            else []
          else [] } := by
  rcases (show w = 8 ∨ w = 4 ∨ (w ≠ 8 ∧ w ≠ 4) by omega) with h8 | h4 | ⟨h8, h4⟩ <;>
  cases hi : s.env "HAVE_BUILTIN_CTZL" <;> cases hc : s.env "__clang__" <;>
    cases hg : s.env "__GNUC__" <;> cases hm : s.env "_MSC_VER" <;>
    simp [bitScanBlock, run, Cond.eval, gccFamily, msvc, State.define, hi, hc, hg, hm, hs, *]


/-- What one pass establishes: the pass succeeds, `INLINE` and `THREAD_LOCAL`
are defined, the five unguarded names have the header's bodies, and a guarded
name that is still undefined is one whose branch defines nothing. -/
theorem resolve_first_pass (w : Nat) (σ : Env) :
    ∃ s, resolve w σ = some s ∧
      (s.env "INLINE").isSome ∧ (s.env "THREAD_LOCAL").isSome ∧
      s.env "BUILD" = some (.text "\"1763876105-mozjpeg-sys\"") ∧
      s.env "SIZEOF_SIZE_T" = some (.int w) ∧
      s.env "FALLTHROUGH" = some (.text "") ∧
      s.env "PACKAGE_NAME" = some (.text "\"mozjpeg-sys\"") ∧
      s.env "VERSION" = some (.text "\"2.2.3\"") ∧
      (s.env "HIDDEN" = none → s.env "__clang__" = none ∧ s.env "__GNUC__" = none) ∧
      (s.env "HAVE_BUILTIN_CTZL" = none → s.env "_MSC_VER" = none →
        s.env "__clang__" = none ∧ s.env "__GNUC__" = none) ∧
      (s.env "HAVE_BUILTIN_CTZL" = none → (s.env "_MSC_VER").isSome → w = 8 →
        s.env "HAVE_BITSCANFORWARD64" = some (.text "")) ∧
      (s.env "HAVE_BUILTIN_CTZL" = none → (s.env "_MSC_VER").isSome → w = 4 →
        s.env "HAVE_BITSCANFORWARD" = some (.text "")) := by
  simp [resolve, jconfigint_h, run_lines_cons, run_lines_nil, run_define, State.define,
      run_inlineBlock, run_hiddenBlock, run_threadLocalBlock, run_bitScanBlock]
  refine ⟨?_, ?_, ?_, ?_, ?_, ?_⟩ <;> (split_ifs <;> simp_all [← Option.ne_none_iff_isSome])

/-- A context with the properties of `resolve_first_pass` is a fixed point of
the pass. -/
theorem resolve_fixed_env (w : Nat) (τ : Env)
    (hi : (τ "INLINE").isSome) (ht : (τ "THREAD_LOCAL").isSome)
    (hb : τ "BUILD" = some (.text "\"1763876105-mozjpeg-sys\""))
    (hs : τ "SIZEOF_SIZE_T" = some (.int w))
    (hf : τ "FALLTHROUGH" = some (.text ""))
    (hp : τ "PACKAGE_NAME" = some (.text "\"mozjpeg-sys\""))
    (hv : τ "VERSION" = some (.text "\"2.2.3\""))
    (hh : τ "HIDDEN" = none → τ "__clang__" = none ∧ τ "__GNUC__" = none)
    (hz : τ "HAVE_BUILTIN_CTZL" = none → τ "_MSC_VER" = none →
        τ "__clang__" = none ∧ τ "__GNUC__" = none)
    (h8 : τ "HAVE_BUILTIN_CTZL" = none → (τ "_MSC_VER").isSome → w = 8 →
        τ "HAVE_BITSCANFORWARD64" = some (.text ""))
    (h4 : τ "HAVE_BUILTIN_CTZL" = none → (τ "_MSC_VER").isSome → w = 4 →
        τ "HAVE_BITSCANFORWARD" = some (.text "")) :
    ∃ s, resolve w τ = some s ∧ s.env = τ := by
  obtain ⟨bi, hi⟩ := Option.isSome_iff_exists.mp hi
  obtain ⟨bt, ht⟩ := Option.isSome_iff_exists.mp ht
  simp [resolve, jconfigint_h, run_lines_cons, run_lines_nil, run_define, State.define,
      run_inlineBlock, run_hiddenBlock, run_threadLocalBlock, run_bitScanBlock,
      hi, ht, hb, hs, hf, hp, hv]
  funext x
  cases hH : τ "HIDDEN" <;> cases hZ : τ "HAVE_BUILTIN_CTZL" <;> cases hM : τ "_MSC_VER" <;>
    simp_all <;> split_ifs <;> simp_all

/-- In a context with the properties of `resolve_first_pass`, every `#define`
the pass executes repeats the body the name already has. -/
theorem resolve_fixed_log (w : Nat) (τ : Env)
    (hi : (τ "INLINE").isSome) (ht : (τ "THREAD_LOCAL").isSome)
    (hb : τ "BUILD" = some (.text "\"1763876105-mozjpeg-sys\""))
    (hs : τ "SIZEOF_SIZE_T" = some (.int w))
    (hf : τ "FALLTHROUGH" = some (.text ""))
    (hp : τ "PACKAGE_NAME" = some (.text "\"mozjpeg-sys\""))
    (hv : τ "VERSION" = some (.text "\"2.2.3\""))
    (hh : τ "HIDDEN" = none → τ "__clang__" = none ∧ τ "__GNUC__" = none)
    (hz : τ "HAVE_BUILTIN_CTZL" = none → τ "_MSC_VER" = none →
        τ "__clang__" = none ∧ τ "__GNUC__" = none)
    (h8 : τ "HAVE_BUILTIN_CTZL" = none → (τ "_MSC_VER").isSome → w = 8 →
        τ "HAVE_BITSCANFORWARD64" = some (.text ""))
    (h4 : τ "HAVE_BUILTIN_CTZL" = none → (τ "_MSC_VER").isSome → w = 4 →
        τ "HAVE_BITSCANFORWARD" = some (.text "")) :
    ∃ s, resolve w τ = some s ∧ ∀ e ∈ s.log, e.prev = some e.body := by
  obtain ⟨bi, hi⟩ := Option.isSome_iff_exists.mp hi
  obtain ⟨bt, ht⟩ := Option.isSome_iff_exists.mp ht
  simp [resolve, jconfigint_h, run_lines_cons, run_lines_nil, run_define, State.define,
      run_inlineBlock, run_hiddenBlock, run_threadLocalBlock, run_bitScanBlock,
      hi, ht, hb, hs, hf, hp, hv]
  rcases (show w = 8 ∨ w = 4 ∨ (w ≠ 8 ∧ w ≠ 4) by omega) with hw | hw | ⟨hw, hw4⟩ <;>
    cases hH : τ "HIDDEN" <;> cases hZ : τ "HAVE_BUILTIN_CTZL" <;> cases hM : τ "_MSC_VER" <;>
    simp_all

/-! ## Guards and re-inclusion -/

/-- C1 (as stated, refuted): a pre-existing `FALLTHROUGH` is overridden.  From a
GCC context in which `FALLTHROUGH` stands for `__attribute__((fallthrough));`,
one pass leaves it with the empty body, and line 40 is recorded as having
replaced the caller's body. -/
theorem C1_fallthrough_overridden :
    ctx [("__GNUC__", .int 13), ("FALLTHROUGH", .text "__attribute__((fallthrough));")]
        "FALLTHROUGH" = some (.text "__attribute__((fallthrough));") ∧
    (resolve 8 (ctx [("__GNUC__", .int 13),
        ("FALLTHROUGH", .text "__attribute__((fallthrough));")])).map
      (fun s => (s.env "FALLTHROUGH",
        decide (⟨"FALLTHROUGH", .text "", some (.text "__attribute__((fallthrough));")⟩ ∈ s.log)))
      = some (some (.text ""), true) := by
  decide

/-- C1 (amended): a pre-existing definition of `INLINE`, `HIDDEN`,
`THREAD_LOCAL` or `HAVE_BUILTIN_CTZL` is never overridden.  For every word
size and every starting context in which one of these four is defined with
body `b`, the pass succeeds, the name still stands for `b` afterwards, and no
`#define` of that name was executed. -/
theorem C1_guarded_definitions_kept (w : Nat) (σ : Env) (name : String) (b : Body)
    (hname : name ∈ ["INLINE", "HIDDEN", "THREAD_LOCAL", "HAVE_BUILTIN_CTZL"])
    (hdef : σ name = some b) :
    ∃ s, resolve w σ = some s ∧ s.env name = some b ∧ ∀ e ∈ s.log, e.name ≠ name := by
  simp only [List.mem_cons, List.mem_singleton, List.not_mem_nil, or_false] at hname
  rcases hname with rfl | rfl | rfl | rfl <;>
    simp [resolve, jconfigint_h, run_lines_cons, run_lines_nil, run_define, State.define,
      run_inlineBlock, run_hiddenBlock, run_threadLocalBlock, run_bitScanBlock, hdef]
  all_goals (intro a ha; split_ifs at ha <;> aesop)


/-- Witness for C1 (amended): an MSVC context whose caller already defined
`INLINE` as `static inline`. -/
theorem C1_guarded_definitions_kept_witness :
    "INLINE" ∈ ["INLINE", "HIDDEN", "THREAD_LOCAL", "HAVE_BUILTIN_CTZL"] ∧
    ctx [("_MSC_VER", .int 1900), ("INLINE", .text "static inline")] "INLINE"
      = some (.text "static inline") ∧
    ∃ s, resolve 8 (ctx [("_MSC_VER", .int 1900), ("INLINE", .text "static inline")]) = some s ∧
      s.env "INLINE" = some (.text "static inline") ∧ ∀ e ∈ s.log, e.name ≠ "INLINE" :=
  ⟨by decide, by decide,
    C1_guarded_definitions_kept 8 _ "INLINE" (.text "static inline") (by decide) (by decide)⟩


/-- C2: processing the header twice in the same build context is idempotent
and conflict-free.  For every word size and every starting context both passes
succeed, the second pass leaves the table of definitions exactly as the first
pass produced it, and every `#define` the second pass executes re-defines a
name with the body it already had. -/
theorem C2_second_pass_idempotent (w : Nat) (σ : Env) :
    ∃ s1 s2, resolve w σ = some s1 ∧ resolve w s1.env = some s2 ∧
      s2.env = s1.env ∧ ∀ e ∈ s2.log, e.prev = some e.body := by
  obtain ⟨s1, h1, hi, ht, hb, hs, hf, hp, hv, hh, hz, h8, h4⟩ := resolve_first_pass w σ
  obtain ⟨s2, h2, henv⟩ := resolve_fixed_env w s1.env hi ht hb hs hf hp hv hh hz h8 h4
  obtain ⟨s3, h3, hlog⟩ := resolve_fixed_log w s1.env hi ht hb hs hf hp hv hh hz h8 h4
  have h23 : s3 = s2 := Option.some.inj (h3.symm.trans h2)
  exact ⟨s1, s2, h1, h2, henv, h23 ▸ hlog⟩

/-! ## The decision table -/

/-- C3: inlining is total and mutually exclusive.  For every word size and
every context in which `INLINE` is not pre-defined, the pass succeeds and
`INLINE` is `inline __attribute__((always_inline))` when `__clang__` or
`__GNUC__` is defined, `__forceinline` when neither is defined but `_MSC_VER`
is, and plain `inline` when none of the three is defined. -/
theorem C3_inline_total (w : Nat) (σ : Env) (h : σ "INLINE" = none) :
    ∃ s, resolve w σ = some s ∧
      ((σ "__clang__").isSome ∨ (σ "__GNUC__").isSome →
        s.env "INLINE" = some (.text "inline __attribute__((always_inline))")) ∧
      (σ "__clang__" = none → σ "__GNUC__" = none → (σ "_MSC_VER").isSome →
        s.env "INLINE" = some (.text "__forceinline")) ∧
      (σ "__clang__" = none → σ "__GNUC__" = none → σ "_MSC_VER" = none →
        s.env "INLINE" = some (.text "inline")) := by
  simp [resolve, jconfigint_h, run_lines_cons, run_lines_nil, run_define, State.define,
    run_inlineBlock, run_hiddenBlock, run_threadLocalBlock, run_bitScanBlock, h]
  refine ⟨?_, ?_, ?_⟩ <;> intros <;> simp_all

/-- Witness for C3: an MSVC context with nothing pre-defined. -/
theorem C3_inline_total_witness :
    ctx [("_MSC_VER", .int 1900)] "INLINE" = none ∧
    ∃ s, resolve 8 (ctx [("_MSC_VER", .int 1900)]) = some s ∧
      s.env "INLINE" = some (.text "__forceinline") := by
  refine ⟨by decide, ?_⟩
  obtain ⟨s, hs, _, hm, _⟩ := C3_inline_total 8 (ctx [("_MSC_VER", .int 1900)]) (by decide)
  exact ⟨s, hs, hm (by decide) (by decide) (by decide)⟩

/-- C4 (as stated, refuted): without a GCC-family compiler `HIDDEN` is not
given an empty body, it is left undefined.  In an MSVC context with nothing
pre-defined, `HIDDEN` is still undefined after the pass. -/
theorem C4_hidden_left_undefined :
    ctx [("_MSC_VER", .int 1900)] "__clang__" = none ∧
    ctx [("_MSC_VER", .int 1900)] "__GNUC__" = none ∧
    ctx [("_MSC_VER", .int 1900)] "HIDDEN" = none ∧
    (resolve 8 (ctx [("_MSC_VER", .int 1900)])).map (fun s => s.env "HIDDEN") = some none ∧
    (resolve 8 (ctx [("_MSC_VER", .int 1900)])).map (fun s => s.env "HIDDEN")
      ≠ some (some (.text "")) := by
  decide

/-- C4 (amended): for every word size and every context in which `HIDDEN` is
not pre-defined, the pass succeeds; when neither `__clang__` nor `__GNUC__` is
defined, `HIDDEN` is still undefined afterwards and no `#define HIDDEN` was
executed; when `__clang__` or `__GNUC__` is defined, `HIDDEN` is
`__attribute__((visibility("hidden")))`. -/
theorem C4_hidden_resolution (w : Nat) (σ : Env) (h : σ "HIDDEN" = none) :
    ∃ s, resolve w σ = some s ∧
      (σ "__clang__" = none → σ "__GNUC__" = none →
        s.env "HIDDEN" = none ∧ ∀ e ∈ s.log, e.name ≠ "HIDDEN") ∧
      ((σ "__clang__").isSome ∨ (σ "__GNUC__").isSome →
        s.env "HIDDEN" = some (.text "__attribute__((visibility(\"hidden\")))")) := by
  cases hc : σ "__clang__" <;> cases hg : σ "__GNUC__" <;>
    simp [resolve, jconfigint_h, run_lines_cons, run_lines_nil, run_define, State.define,
      run_inlineBlock, run_hiddenBlock, run_threadLocalBlock, run_bitScanBlock, h, hc, hg]
  intro a ha
  split_ifs at ha <;> aesop

/-- Witness for C4 (amended): a context with no compiler identification and
nothing pre-defined. -/
theorem C4_hidden_resolution_witness :
    ctx [] "HIDDEN" = none ∧
    ∃ s, resolve 8 (ctx []) = some s ∧ s.env "HIDDEN" = none ∧
      ∀ e ∈ s.log, e.name ≠ "HIDDEN" := by
  refine ⟨by decide, ?_⟩
  obtain ⟨s, hs, ho, _⟩ := C4_hidden_resolution 8 (ctx []) (by decide)
  exact ⟨s, hs, ho (by decide) (by decide)⟩


/-! ## Scenarios -/

/-- C5: scenario GCC-family (`__clang__` or `__GNUC__` defined, `_MSC_VER`
not), word size 8, none of the capability names pre-defined.  The pass
succeeds with `INLINE` the forced-inline form, `HIDDEN` the hidden-visibility
attribute, `THREAD_LOCAL` equal to `__thread`, `HAVE_THREAD_LOCAL` defined,
`HAVE_BUILTIN_CTZL` defined as 1, neither `HAVE_BITSCANFORWARD64` nor
`HAVE_BITSCANFORWARD` defined, and `FALLTHROUGH` defined empty. -/
theorem C5_scenario_gcc (σ : Env)
    (hg : (σ "__clang__").isSome ∨ (σ "__GNUC__").isSome) (hm : σ "_MSC_VER" = none)
    (hI : σ "INLINE" = none) (hH : σ "HIDDEN" = none) (hT : σ "THREAD_LOCAL" = none)
    (hZ : σ "HAVE_BUILTIN_CTZL" = none) (h64 : σ "HAVE_BITSCANFORWARD64" = none)
    (h32 : σ "HAVE_BITSCANFORWARD" = none) :
    ∃ s, resolve 8 σ = some s ∧
      s.env "INLINE" = some (.text "inline __attribute__((always_inline))") ∧
      s.env "HIDDEN" = some (.text "__attribute__((visibility(\"hidden\")))") ∧
      s.env "THREAD_LOCAL" = some (.text "__thread") ∧
      s.env "HAVE_THREAD_LOCAL" = some (.text "") ∧
      s.env "HAVE_BUILTIN_CTZL" = some (.int 1) ∧
      s.env "HAVE_BITSCANFORWARD64" = none ∧
      s.env "HAVE_BITSCANFORWARD" = none ∧
      s.env "FALLTHROUGH" = some (.text "") := by
  simp [resolve, jconfigint_h, run_lines_cons, run_lines_nil, run_define, State.define,
    run_inlineBlock, run_hiddenBlock, run_threadLocalBlock, run_bitScanBlock,
    hg, hm, hI, hH, hT, hZ, h64, h32]

/-- Witness for C5: GCC 13 with nothing pre-defined. -/
theorem C5_scenario_gcc_witness :
    ∃ s, resolve 8 (ctx [("__GNUC__", .int 13)]) = some s ∧
      s.env "INLINE" = some (.text "inline __attribute__((always_inline))") ∧
      s.env "HIDDEN" = some (.text "__attribute__((visibility(\"hidden\")))") ∧
      s.env "THREAD_LOCAL" = some (.text "__thread") ∧
      s.env "HAVE_THREAD_LOCAL" = some (.text "") ∧
      s.env "HAVE_BUILTIN_CTZL" = some (.int 1) ∧
      s.env "HAVE_BITSCANFORWARD64" = none ∧
      s.env "HAVE_BITSCANFORWARD" = none ∧
      s.env "FALLTHROUGH" = some (.text "") :=
  C5_scenario_gcc (ctx [("__GNUC__", .int 13)]) (by decide) (by decide) (by decide) (by decide)
    (by decide) (by decide) (by decide) (by decide)

/-- C6: scenario MSVC-family (only `_MSC_VER` defined), word size 8, none of
the capability names pre-defined.  The pass succeeds with `INLINE` equal to
`__forceinline`, `HIDDEN` not defined (no `#define HIDDEN` executed),
`THREAD_LOCAL` equal to `__declspec(thread)`, `HAVE_THREAD_LOCAL` defined,
`HAVE_BITSCANFORWARD64` defined, and `HAVE_BITSCANFORWARD` and
`HAVE_BUILTIN_CTZL` not defined. -/
theorem C6_scenario_msvc (σ : Env)
    (hm : (σ "_MSC_VER").isSome) (hc : σ "__clang__" = none) (hg : σ "__GNUC__" = none)
    (hI : σ "INLINE" = none) (hH : σ "HIDDEN" = none) (hT : σ "THREAD_LOCAL" = none)
    (hZ : σ "HAVE_BUILTIN_CTZL" = none) (h32 : σ "HAVE_BITSCANFORWARD" = none) :
    ∃ s, resolve 8 σ = some s ∧
      s.env "INLINE" = some (.text "__forceinline") ∧
      s.env "HIDDEN" = none ∧ (∀ e ∈ s.log, e.name ≠ "HIDDEN") ∧
      s.env "THREAD_LOCAL" = some (.text "__declspec(thread)") ∧
      s.env "HAVE_THREAD_LOCAL" = some (.text "") ∧
      s.env "HAVE_BITSCANFORWARD64" = some (.text "") ∧
      s.env "HAVE_BITSCANFORWARD" = none ∧
      s.env "HAVE_BUILTIN_CTZL" = none := by
  simp [resolve, jconfigint_h, run_lines_cons, run_lines_nil, run_define, State.define,
    run_inlineBlock, run_hiddenBlock, run_threadLocalBlock, run_bitScanBlock,
    hm, hc, hg, hI, hH, hT, hZ, h32]

/-- Witness for C6: MSVC 19.00 with nothing pre-defined. -/
theorem C6_scenario_msvc_witness :
    ∃ s, resolve 8 (ctx [("_MSC_VER", .int 1900)]) = some s ∧
      s.env "INLINE" = some (.text "__forceinline") ∧
      s.env "HIDDEN" = none ∧ (∀ e ∈ s.log, e.name ≠ "HIDDEN") ∧
      s.env "THREAD_LOCAL" = some (.text "__declspec(thread)") ∧
      s.env "HAVE_THREAD_LOCAL" = some (.text "") ∧
      s.env "HAVE_BITSCANFORWARD64" = some (.text "") ∧
      s.env "HAVE_BITSCANFORWARD" = none ∧
      s.env "HAVE_BUILTIN_CTZL" = none :=
  C6_scenario_msvc (ctx [("_MSC_VER", .int 1900)]) (by decide) (by decide) (by decide)
    (by decide) (by decide) (by decide) (by decide) (by decide)

/-- C7: scenario Other compiler (none of `__clang__`, `__GNUC__`, `_MSC_VER`
defined), word size 8, none of the capability names pre-defined.  The pass
succeeds with `INLINE` equal to plain `inline`, `HIDDEN` not defined (no
`#define HIDDEN` executed), `THREAD_LOCAL` defined empty, `HAVE_THREAD_LOCAL`
not defined, and none of `HAVE_BUILTIN_CTZL`, `HAVE_BITSCANFORWARD64`,
`HAVE_BITSCANFORWARD` defined. -/
theorem C7_scenario_other (σ : Env)
    (hc : σ "__clang__" = none) (hg : σ "__GNUC__" = none) (hm : σ "_MSC_VER" = none)
    (hI : σ "INLINE" = none) (hH : σ "HIDDEN" = none) (hT : σ "THREAD_LOCAL" = none)
    (hHT : σ "HAVE_THREAD_LOCAL" = none)
    (hZ : σ "HAVE_BUILTIN_CTZL" = none) (h64 : σ "HAVE_BITSCANFORWARD64" = none)
    (h32 : σ "HAVE_BITSCANFORWARD" = none) :
    ∃ s, resolve 8 σ = some s ∧
      s.env "INLINE" = some (.text "inline") ∧
      s.env "HIDDEN" = none ∧ (∀ e ∈ s.log, e.name ≠ "HIDDEN") ∧
      s.env "THREAD_LOCAL" = some (.text "") ∧
      s.env "HAVE_THREAD_LOCAL" = none ∧
      s.env "HAVE_BUILTIN_CTZL" = none ∧
      s.env "HAVE_BITSCANFORWARD64" = none ∧
      s.env "HAVE_BITSCANFORWARD" = none := by
  simp [resolve, jconfigint_h, run_lines_cons, run_lines_nil, run_define, State.define,
    run_inlineBlock, run_hiddenBlock, run_threadLocalBlock, run_bitScanBlock,
    hm, hc, hg, hI, hH, hT, hHT, hZ, h64, h32]

/-- Witness for C7: the empty build context. -/
theorem C7_scenario_other_witness :
    ∃ s, resolve 8 (ctx []) = some s ∧
      s.env "INLINE" = some (.text "inline") ∧
      s.env "HIDDEN" = none ∧ (∀ e ∈ s.log, e.name ≠ "HIDDEN") ∧
      s.env "THREAD_LOCAL" = some (.text "") ∧
      s.env "HAVE_THREAD_LOCAL" = none ∧
      s.env "HAVE_BUILTIN_CTZL" = none ∧
      s.env "HAVE_BITSCANFORWARD64" = none ∧
      s.env "HAVE_BITSCANFORWARD" = none :=
  C7_scenario_other (ctx []) (by decide) (by decide) (by decide) (by decide) (by decide)
    (by decide) (by decide) (by decide) (by decide) (by decide)


/-! ## Word size -/

/-- C9 (as stated, refuted): with `__clang__` defined and `HAVE_BUILTIN_CTZL`
not pre-defined, `HAVE_BUILTIN_CTZL` can stay undefined and a bit-scan-forward
flag can be emitted.  In a context that defines both `__clang__` and
`_MSC_VER` (word size 8), the pass leaves `HAVE_BUILTIN_CTZL` undefined and
defines `HAVE_BITSCANFORWARD64`. -/
theorem C9_clang_with_msc_ver :
    (ctx [("__clang__", .int 1), ("_MSC_VER", .int 1900)] "__clang__").isSome ∧
    ctx [("__clang__", .int 1), ("_MSC_VER", .int 1900)] "HAVE_BUILTIN_CTZL" = none ∧
    (resolve 8 (ctx [("__clang__", .int 1), ("_MSC_VER", .int 1900)])).map
      (fun s => (s.env "HAVE_BUILTIN_CTZL", s.env "HAVE_BITSCANFORWARD64",
        s.log.map (fun e => e.name)))
      = some (none, some (.text ""),
          ["BUILD", "INLINE", "HIDDEN", "HAVE_THREAD_LOCAL", "THREAD_LOCAL", "SIZEOF_SIZE_T",
            "HAVE_BITSCANFORWARD64", "FALLTHROUGH", "PACKAGE_NAME", "VERSION"]) := by
  decide

/-- C9 (amended): for every context in which `__clang__` or `__GNUC__` is
defined and `_MSC_VER` is not, for every word size, and with
`HAVE_BUILTIN_CTZL` not pre-defined, the pass succeeds, `HAVE_BUILTIN_CTZL` is
defined as 1, and neither bit-scan-forward flag is emitted: no `#define` of
`HAVE_BITSCANFORWARD64` or `HAVE_BITSCANFORWARD` is executed and both names
stand for what they stood for before. -/
theorem C9_gcc_builtin_ctzl (w : Nat) (σ : Env)
    (hg : (σ "__clang__").isSome ∨ (σ "__GNUC__").isSome) (hm : σ "_MSC_VER" = none)
    (hZ : σ "HAVE_BUILTIN_CTZL" = none) :
    ∃ s, resolve w σ = some s ∧
      s.env "HAVE_BUILTIN_CTZL" = some (.int 1) ∧
      (∀ e ∈ s.log, e.name ≠ "HAVE_BITSCANFORWARD64" ∧ e.name ≠ "HAVE_BITSCANFORWARD") ∧
      s.env "HAVE_BITSCANFORWARD64" = σ "HAVE_BITSCANFORWARD64" ∧
      s.env "HAVE_BITSCANFORWARD" = σ "HAVE_BITSCANFORWARD" := by
  simp [resolve, jconfigint_h, run_lines_cons, run_lines_nil, run_define, State.define,
    run_inlineBlock, run_hiddenBlock, run_threadLocalBlock, run_bitScanBlock, hg, hm, hZ]
  intro a ha
  aesop

/-- Witness for C9 (amended): clang on a 32-bit target, nothing pre-defined. -/
theorem C9_gcc_builtin_ctzl_witness :
    ∃ s, resolve 4 (ctx [("__clang__", .int 1), ("__GNUC__", .int 4)]) = some s ∧
      s.env "HAVE_BUILTIN_CTZL" = some (.int 1) ∧
      (∀ e ∈ s.log, e.name ≠ "HAVE_BITSCANFORWARD64" ∧ e.name ≠ "HAVE_BITSCANFORWARD") ∧
      s.env "HAVE_BITSCANFORWARD64" = none ∧
      s.env "HAVE_BITSCANFORWARD" = none :=
  C9_gcc_builtin_ctzl 4 (ctx [("__clang__", .int 1), ("__GNUC__", .int 4)])
    (by decide) (by decide) (by decide)

/-- C11 (as stated, refuted): three compiler identities do not determine the
output.  The context of clang in MSVC-compatible mode (`__clang__` and
`_MSC_VER` defined, nothing else) passes the header's GCC-family test like
plain clang and its `_MSC_VER` test like plain MSVC, yet on a 64-bit target it
resolves differently from plain clang (`THREAD_LOCAL`), from plain MSVC
(`INLINE`) and from the empty context (`INLINE`), so whichever of the three
identities it is given, two contexts of one identity differ. -/
theorem C11_clang_cl_fits_no_identity :
    Cond.eval (ctx [("__clang__", .int 1)]) gccFamily = some true ∧
    Cond.eval (ctx [("__clang__", .int 1), ("_MSC_VER", .int 1900)]) gccFamily = some true ∧
    Cond.eval (ctx [("__clang__", .int 1), ("_MSC_VER", .int 1900)]) msvc = some true ∧
    Cond.eval (ctx [("_MSC_VER", .int 1900)]) msvc = some true ∧
    (resolve 8 (ctx [("__clang__", .int 1), ("_MSC_VER", .int 1900)])).map
      (fun s => (s.env "INLINE", s.env "THREAD_LOCAL"))
      = some (some (.text "inline __attribute__((always_inline))"),
          some (.text "__declspec(thread)")) ∧
    (resolve 8 (ctx [("__clang__", .int 1)])).map
      (fun s => (s.env "INLINE", s.env "THREAD_LOCAL"))
      = some (some (.text "inline __attribute__((always_inline))"),
          some (.text "__thread")) ∧
    (resolve 8 (ctx [("_MSC_VER", .int 1900)])).map
      (fun s => (s.env "INLINE", s.env "THREAD_LOCAL"))
      = some (some (.text "__forceinline"), some (.text "__declspec(thread)")) ∧
    (resolve 8 (ctx [])).map
      (fun s => (s.env "INLINE", s.env "THREAD_LOCAL"))
      = some (some (.text "inline"), some (.text "")) := by
  decide

/-- C11 (amended): the output is determined by the outcomes of the header's
two compiler tests and the word size.  Two contexts on which
`defined(__clang__) || defined(__GNUC__)` and `defined(_MSC_VER)` both come
out the same, neither of which pre-defines a capability or flag name, resolve
for the same word size to the same body for every name the header defines, by
the same sequence of `#define` lines.  Whether the GCC family is signalled by
`__clang__`, by `__GNUC__` or by both makes no difference. -/
theorem C11_determined_by_compiler_tests (w : Nat) (σ τ : Env)
    (hg : Cond.eval σ gccFamily = Cond.eval τ gccFamily)
    (hm : Cond.eval σ msvc = Cond.eval τ msvc)
    (hσ : ∀ x ∈ ["INLINE", "HIDDEN", "THREAD_LOCAL", "HAVE_THREAD_LOCAL", "HAVE_BUILTIN_CTZL",
      "HAVE_BITSCANFORWARD64", "HAVE_BITSCANFORWARD"], σ x = none)
    (hτ : ∀ x ∈ ["INLINE", "HIDDEN", "THREAD_LOCAL", "HAVE_THREAD_LOCAL", "HAVE_BUILTIN_CTZL",
      "HAVE_BITSCANFORWARD64", "HAVE_BITSCANFORWARD"], τ x = none) :
    ∃ s t, resolve w σ = some s ∧ resolve w τ = some t ∧
      (∀ x ∈ ["BUILD", "INLINE", "HIDDEN", "THREAD_LOCAL", "HAVE_THREAD_LOCAL",
        "SIZEOF_SIZE_T", "HAVE_BUILTIN_CTZL", "HAVE_BITSCANFORWARD64", "HAVE_BITSCANFORWARD",
        "FALLTHROUGH", "PACKAGE_NAME", "VERSION"], s.env x = t.env x) ∧
      s.log.map (fun e => (e.name, e.body)) = t.log.map (fun e => (e.name, e.body)) := by
  simp only [List.mem_cons, List.mem_singleton, List.not_mem_nil, or_false, forall_eq_or_imp,
    forall_eq] at hσ hτ
  obtain ⟨a1, a2, a3, a4, a5, a6, a7⟩ := hσ
  obtain ⟨b1, b2, b3, b4, b5, b6, b7⟩ := hτ
  simp only [Cond.eval, gccFamily, msvc, Option.some.injEq] at hg hm
  have hg' : ((σ "__clang__").isSome = true ∨ (σ "__GNUC__").isSome = true) ↔
      ((τ "__clang__").isSome = true ∨ (τ "__GNUC__").isSome = true) := by
    rw [← Bool.or_eq_true, ← Bool.or_eq_true, hg]
  simp [resolve, jconfigint_h, run_lines_cons, run_lines_nil, run_define, State.define,
    run_inlineBlock, run_hiddenBlock, run_threadLocalBlock, run_bitScanBlock,
    a1, a2, a3, a4, a5, a6, a7, b1, b2, b3, b4, b5, b6, b7]
  simp only [hg', hm, and_self]

/-- Witness for C11 (amended): the GCC family signalled by `__clang__` alone and by
`__GNUC__` together with `__clang__`, on a 64-bit target. -/
theorem C11_determined_by_compiler_tests_witness :
    ∃ s t, resolve 8 (ctx [("__clang__", .int 1)]) = some s ∧
      resolve 8 (ctx [("__GNUC__", .int 4), ("__clang__", .int 1)]) = some t ∧
      (∀ x ∈ ["BUILD", "INLINE", "HIDDEN", "THREAD_LOCAL", "HAVE_THREAD_LOCAL",
        "SIZEOF_SIZE_T", "HAVE_BUILTIN_CTZL", "HAVE_BITSCANFORWARD64", "HAVE_BITSCANFORWARD",
        "FALLTHROUGH", "PACKAGE_NAME", "VERSION"], s.env x = t.env x) ∧
      s.log.map (fun e => (e.name, e.body)) = t.log.map (fun e => (e.name, e.body)) :=
  C11_determined_by_compiler_tests 8 (ctx [("__clang__", .int 1)])
    (ctx [("__GNUC__", .int 4), ("__clang__", .int 1)])
    (by decide) (by decide) (by decide) (by decide)

/-- C12: the fallthrough marker is empty for any input.  For every word size
and every starting context, whatever `FALLTHROUGH` stood for before, the pass
succeeds and `FALLTHROUGH` is defined with the empty body afterwards. -/
theorem C12_fallthrough_empty (w : Nat) (σ : Env) :
    ∃ s, resolve w σ = some s ∧ s.env "FALLTHROUGH" = some (.text "") := by
  simp [resolve, jconfigint_h, run_lines_cons, run_lines_nil, run_define, State.define,
    run_inlineBlock, run_hiddenBlock, run_threadLocalBlock, run_bitScanBlock]

/-- C13: the thread-local presence flag is sound and complete for the
keyword.  For every word size and every context in which neither
`THREAD_LOCAL` nor `HAVE_THREAD_LOCAL` is defined, the pass succeeds,
`THREAD_LOCAL` is defined afterwards, and `HAVE_THREAD_LOCAL` is defined
exactly when `THREAD_LOCAL` is `__declspec(thread)` or `__thread`, which is
exactly when `THREAD_LOCAL` is not the empty definition. -/
theorem C13_thread_local_flag (w : Nat) (σ : Env)
    (hT : σ "THREAD_LOCAL" = none) (hF : σ "HAVE_THREAD_LOCAL" = none) :
    ∃ s, resolve w σ = some s ∧
      (s.env "THREAD_LOCAL").isSome ∧
      ((s.env "HAVE_THREAD_LOCAL").isSome ↔
        (s.env "THREAD_LOCAL" = some (.text "__declspec(thread)") ∨
          s.env "THREAD_LOCAL" = some (.text "__thread"))) ∧
      ((s.env "HAVE_THREAD_LOCAL").isSome ↔ s.env "THREAD_LOCAL" ≠ some (.text "")) := by
  cases hm : σ "_MSC_VER" <;> cases hc : σ "__clang__" <;> cases hg : σ "__GNUC__" <;>
    simp [resolve, jconfigint_h, run_lines_cons, run_lines_nil, run_define, State.define,
      run_inlineBlock, run_hiddenBlock, run_threadLocalBlock, run_bitScanBlock,
      hT, hF, hm, hc, hg]

/-- Witness for C13: the empty build context, where `THREAD_LOCAL` comes out
empty and the flag stays undefined. -/
theorem C13_thread_local_flag_witness :
    ∃ s, resolve 8 (ctx []) = some s ∧
      (s.env "THREAD_LOCAL").isSome ∧
      ((s.env "HAVE_THREAD_LOCAL").isSome ↔
        (s.env "THREAD_LOCAL" = some (.text "__declspec(thread)") ∨
          s.env "THREAD_LOCAL" = some (.text "__thread"))) ∧
      ((s.env "HAVE_THREAD_LOCAL").isSome ↔ s.env "THREAD_LOCAL" ≠ some (.text "")) :=
  C13_thread_local_flag 8 (ctx []) (by decide) (by decide)

/-- C14: a compiler that defines both a GCC-family name (`__clang__` or
`__GNUC__`) and `_MSC_VER` gets a mixed result.  From such a context with none
of `INLINE`, `HIDDEN`, `THREAD_LOCAL`, `HAVE_BUILTIN_CTZL` pre-defined, the
header resolves `INLINE` to `inline __attribute__((always_inline))` and
`HIDDEN` to the hidden-visibility attribute, but `THREAD_LOCAL` to
`__declspec(thread)`, defines `HAVE_BITSCANFORWARD64`, and leaves
`HAVE_BUILTIN_CTZL` undefined. -/
theorem C14_mixed_compiler (σ : Env)
    (hg : (σ "__clang__").isSome ∨ (σ "__GNUC__").isSome) (hm : (σ "_MSC_VER").isSome)
    (hI : σ "INLINE" = none) (hH : σ "HIDDEN" = none) (hT : σ "THREAD_LOCAL" = none)
    (hZ : σ "HAVE_BUILTIN_CTZL" = none) :
    ∃ s, resolve 8 σ = some s ∧
      s.env "INLINE" = some (.text "inline __attribute__((always_inline))") ∧
      s.env "HIDDEN" = some (.text "__attribute__((visibility(\"hidden\")))") ∧
      s.env "THREAD_LOCAL" = some (.text "__declspec(thread)") ∧
      s.env "HAVE_BITSCANFORWARD64" = some (.text "") ∧
      s.env "HAVE_BUILTIN_CTZL" = none := by
  simp [resolve, jconfigint_h, run_lines_cons, run_lines_nil, run_define, State.define,
    run_inlineBlock, run_hiddenBlock, run_threadLocalBlock, run_bitScanBlock,
    hg, hm, hI, hH, hT, hZ]

/-- Witness for C14: clang in MSVC-compatible mode (`__clang__` and `_MSC_VER`
both defined), with nothing pre-defined. -/
theorem C14_mixed_compiler_witness :
    ∃ s, resolve 8 (ctx [("_MSC_VER", .int 1939), ("__clang__", .int 1)]) = some s ∧
      s.env "INLINE" = some (.text "inline __attribute__((always_inline))") ∧
      s.env "HIDDEN" = some (.text "__attribute__((visibility(\"hidden\")))") ∧
      s.env "THREAD_LOCAL" = some (.text "__declspec(thread)") ∧
      s.env "HAVE_BITSCANFORWARD64" = some (.text "") ∧
      s.env "HAVE_BUILTIN_CTZL" = none :=
  C14_mixed_compiler (ctx [("_MSC_VER", .int 1939), ("__clang__", .int 1)])
    (by decide) (by decide) (by decide) (by decide) (by decide) (by decide)

/-- C15: a caller-supplied `THREAD_LOCAL` suppresses the presence flag.  For
every word size and every context, whatever compiler names it defines, in
which `THREAD_LOCAL` is defined with body `b` and `HAVE_THREAD_LOCAL` is not
defined, the pass succeeds, `THREAD_LOCAL` still stands for `b`, and
`HAVE_THREAD_LOCAL` is still undefined. -/
theorem C15_thread_local_supplied (w : Nat) (σ : Env) (b : Body)
    (hT : σ "THREAD_LOCAL" = some b) (hF : σ "HAVE_THREAD_LOCAL" = none) :
    ∃ s, resolve w σ = some s ∧
      s.env "THREAD_LOCAL" = some b ∧ s.env "HAVE_THREAD_LOCAL" = none := by
  simp [resolve, jconfigint_h, run_lines_cons, run_lines_nil, run_define, State.define,
    run_inlineBlock, run_hiddenBlock, run_threadLocalBlock, run_bitScanBlock, hT, hF]

/-- Witness for C15: GCC 13 with `THREAD_LOCAL` supplied as `_Thread_local`. -/
theorem C15_thread_local_supplied_witness :
    ∃ s, resolve 8 (ctx [("__GNUC__", .int 13), ("THREAD_LOCAL", .text "_Thread_local")])
        = some s ∧
      s.env "THREAD_LOCAL" = some (.text "_Thread_local") ∧
      s.env "HAVE_THREAD_LOCAL" = none :=
  C15_thread_local_supplied 8
    (ctx [("__GNUC__", .int 13), ("THREAD_LOCAL", .text "_Thread_local")])
    (.text "_Thread_local") (by decide) (by decide)

end JConfigInt
